import Mathlib

/-!
Verification of the tns-csi CSI driver's snapshot and NVMe-oF staging logic.

Strings from the Go source are modelled as lists of characters (`Str`);
appliance and kernel interactions are modelled as explicit environments
(records of call outcomes) so that each controller/node function becomes a
pure Lean function over its environment, returning its gRPC outcome and a
trace of the appliance calls it issued.
-/

namespace TnsCsi

/-- Strings of the Go source, modelled as lists of characters. -/
abbrev Str := List Char

/-- Modelled from the spec: protocol tag for NFS volumes (`protocol` is one of
nfs, nvmeof, iscsi); the constant itself is declared outside `src/`. -/
def ProtocolNFS : Str := "nfs".data

/-- Modelled from the spec: protocol tag for NVMe-oF volumes; declared outside `src/`. -/
def ProtocolNVMeOF : Str := "nvmeof".data

/-- Modelled from the spec: protocol tag for iSCSI volumes; declared outside `src/`. -/
def ProtocolISCSI : Str := "iscsi".data

/-- Modelled from the spec: the string `"true"` used for boolean-valued
volume-context entries and user properties; declared outside `src/`. -/
def VolumeContextValueTrue : Str := "true".data

/-- Modelled from the spec: the string `"false"` for boolean-valued user
properties; declared outside `src/`. -/
def VolumeContextValueFalse : Str := "false".data

/-- Modelled from the spec: the fixed value of the `managed_by` user property
identifying datasets created by this plugin (the managed-by sentinel).  Its
exact text is immaterial to the claims; only equality with itself is used. -/
def ManagedByValue : Str := "tns-csi".data

/-- `DetachedSnapshotPrefix` from the source: prefix marking detached snapshot IDs. -/
def DetachedSnapshotPrefixStr : Str := "detached:".data

/-- `DefaultDetachedSnapshotsFolder` from the source. -/
def DefaultDetachedSnapshotsFolder : Str := "csi-detached-snapshots".data

/-- gRPC status codes used by the engine. -/
inductive GrpcCode where
  | invalidArgument
  | notFound
  | alreadyExists
  | failedPrecondition
  | internal
  | deadlineExceeded
  | unavailable
  | aborted
deriving DecidableEq, Repr

/-- Splits a character list at the FIRST occurrence of `c`
(Go `strings.Index` followed by slicing): returns the part before and after. -/
def splitAtFirstChar (c : Char) : Str → Option (Str × Str)
  | [] => none
  | x :: xs =>
    if x = c then some ([], xs)
    else (splitAtFirstChar c xs).map (fun p => (x :: p.1, p.2))

/-- Splits a character list at the LAST occurrence of `c`
(Go `strings.LastIndex` followed by slicing). -/
def splitAtLastChar (c : Char) (s : Str) : Option (Str × Str) :=
  match splitAtFirstChar c s.reverse with
  | none => none
  | some p => some (p.2.reverse, p.1.reverse)

/-- `SnapshotMetadata` from the source (information needed to manage a snapshot). -/
structure SnapshotMetadata where
  snapshotName : Str
  sourceVolume : Str
  datasetName : Str
  protocol : Str
  createdAt : Int
  detached : Bool
deriving DecidableEq, Repr

/-- The static error values of the snapshot codec (`errors.New` values in the source). -/
inductive SnapErr where
  | protocolRequired
  | sourceVolumeRequired
  | snapshotNameRequired
  | invalidSnapshotIDFormat
  | invalidProtocol
deriving DecidableEq, Repr

/-- The part of `meta.SnapshotName` after the last `@` (the whole name when
there is no `@`), as computed inside `encodeSnapshotID`. -/
def extractShortSnapshotName (snapshotName : Str) : Str :=
  match splitAtLastChar '@' snapshotName with
  | some p => p.2
  | none => snapshotName

/-- `encodeSnapshotID` from the source: encodes snapshot metadata into the
compact `protocol:volume@name` ID, with the `detached:` prefix when detached. -/
def encodeSnapshotID (meta : SnapshotMetadata) : Except SnapErr Str :=
  if meta.protocol = [] then .error .protocolRequired
  else if meta.sourceVolume = [] then .error .sourceVolumeRequired
  else
    let snapshotName := extractShortSnapshotName meta.snapshotName
    if snapshotName = [] then .error .snapshotNameRequired
    else
      let baseID := meta.protocol ++ ':' :: meta.sourceVolume ++ '@' :: snapshotName
      if meta.detached then .ok (DetachedSnapshotPrefixStr ++ baseID)
      else .ok baseID

/-- `decodeCompactSnapshotID` from the source: decodes `protocol:volume@name`. -/
def decodeCompactSnapshotID (snapshotID : Str) : Except SnapErr SnapshotMetadata :=
  match splitAtFirstChar ':' snapshotID with
  | none => .error .invalidSnapshotIDFormat
  | some (protocol, remainder) =>
    if protocol ≠ ProtocolNFS ∧ protocol ≠ ProtocolNVMeOF ∧ protocol ≠ ProtocolISCSI then
      .error .invalidProtocol
    else
      match splitAtLastChar '@' remainder with
      | none => .error .invalidSnapshotIDFormat
      | some (volumeID, snapshotName) =>
        if volumeID = [] then .error .invalidSnapshotIDFormat
        else if snapshotName = [] then .error .invalidSnapshotIDFormat
        else .ok
          { protocol := protocol
            sourceVolume := volumeID
            snapshotName := snapshotName
            datasetName := []
            createdAt := 0
            detached := false }

/-- `decodeSnapshotID` from the source: handles the `detached:` prefix, then
decodes the compact format. -/
def decodeSnapshotID (snapshotID : Str) : Except SnapErr SnapshotMetadata :=
  if DetachedSnapshotPrefixStr.isPrefixOf snapshotID then
    match decodeCompactSnapshotID (snapshotID.drop DetachedSnapshotPrefixStr.length) with
    | .error e => .error e
    | .ok meta => .ok { meta with detached := true }
  else decodeCompactSnapshotID snapshotID

/-- Whether an `Except` value is an error. -/
def isErr {ε α : Type} : Except ε α → Bool
  | .error _ => true
  | .ok _ => false
deriving instance DecidableEq for Except

/-! ## CreateSnapshot (regular path): global-uniqueness probe and property setting -/

/-- `tnsapi.Snapshot`: the fields of an appliance snapshot used by the engine. -/
structure Snapshot where
  id : Str
  name : Str
  dataset : Str
deriving DecidableEq, Repr

/-- Go `strings.Split(s, c)` for a one-character separator: splits at every
occurrence of `c` (always returns at least one part). -/
def splitChar (c : Char) : Str → List Str
  | [] => [[]]
  | x :: xs =>
    match splitChar c xs with
    | [] => [[]]
    | h :: t => if x = c then [] :: h :: t else (x :: h) :: t

/-- Outcome of the global-uniqueness probe loop inside `createRegularSnapshot`. -/
inductive ProbeResult where
  | returnExisting (id : Str)
  | alreadyExists (existingDataset : Str)
  | proceed
deriving DecidableEq, Repr

/-- The probe loop of `createRegularSnapshot` over the name-filtered query
result: the first snapshot whose ID splits on `@` into exactly two parts
decides (same dataset: idempotent return; different dataset: AlreadyExists);
malformed IDs are skipped; an exhausted list falls through to creation. -/
def createRegularSnapshotProbe (snaps : List Snapshot) (datasetName : Str) : ProbeResult :=
  match snaps with
  | [] => .proceed
  | s :: rest =>
    match splitChar '@' s.id with
    | [existingDataset, _] =>
      if existingDataset = datasetName then .returnExisting s.id
      else .alreadyExists existingDataset
    | _ => createRegularSnapshotProbe rest datasetName

/-- Environment of `createRegularSnapshot`: the outcomes of its appliance calls. -/
structure RegularCreateEnv where
  querySnapshotsByName : Except Unit (List Snapshot)
  createSnapshot : Except Unit Snapshot
  setSnapshotProperties : Except Unit Unit
  now : Int

/-- Result of a CreateSnapshot RPC. -/
inductive CreateSnapshotResult where
  | success (snapshotId : Str) (sourceVolumeId : Str) (readyToUse : Bool)
  | rpcError (code : GrpcCode)
deriving DecidableEq, Repr

/-- The probe outcome of `createRegularSnapshot`: a failed query is only
logged (creation proceeds); otherwise the probe loop runs. -/
def regularProbeOutcome (env : RegularCreateEnv) (datasetName : Str) : ProbeResult :=
  match env.querySnapshotsByName with
  | .error _ => .proceed
  | .ok snaps => createRegularSnapshotProbe snaps datasetName

/-- `createRegularSnapshot` from the source: uniqueness probe, snapshot
creation, property setting (non-fatal), ID encoding. -/
def createRegularSnapshot (env : RegularCreateEnv)
    (snapshotName sourceVolumeID datasetName protocol : Str) : CreateSnapshotResult :=
  match regularProbeOutcome env datasetName with
  | .returnExisting existingID =>
    match encodeSnapshotID
        { snapshotName := existingID, sourceVolume := sourceVolumeID,
          datasetName := datasetName, protocol := protocol,
          createdAt := env.now, detached := false } with
    | .error _ => .rpcError .internal
    | .ok sid => .success sid sourceVolumeID true
  | .alreadyExists _ => .rpcError .alreadyExists
  | .proceed =>
    match env.createSnapshot with
    | .error _ => .rpcError .internal
    | .ok snap =>
      match env.setSnapshotProperties with
      | _ =>
        match encodeSnapshotID
            { snapshotName := snap.id, sourceVolume := sourceVolumeID,
              datasetName := datasetName, protocol := protocol,
              createdAt := env.now, detached := false } with
        | .error _ => .rpcError .internal
        | .ok sid => .success sid sourceVolumeID true

/-- The first entry of a query result whose ID is well-formed (`dataset@name`),
with its dataset part. -/
def firstWellFormedSnapshot : List Snapshot → Option (Str × Str)
  | [] => none
  | s :: rest =>
    match splitChar '@' s.id with
    | [existingDataset, _] => some (existingDataset, s.id)
    | _ => firstWellFormedSnapshot rest

/-! ## DeleteSnapshot: regular and detached paths -/

/-- Classification of appliance errors, as tested by `isNotFoundError`:
`notFound` abstracts an error whose text matches one of the not-found
indicators; `other` is any other appliance failure. -/
inductive ApiErr where
  | notFound
  | other
deriving DecidableEq, Repr

/-- Environment of `deleteRegularSnapshot` (and of the resolution it performs). -/
structure RegularDeleteEnv where
  querySnapshotsByName : Except Unit (List Snapshot)
  deleteSnapshot : Str → Option ApiErr

/-- Go `strings.Contains(s, sub)`: whether `sub` occurs as a contiguous
substring of `s`. -/
def containsSubstring : Str → Str → Bool
  | [], sub => sub.isEmpty
  | x :: tail, sub => sub.isPrefixOf (x :: tail) || containsSubstring tail sub

/-- The query loop of `resolveZFSSnapshotName`: first snapshot whose ID ends in
`@name` and whose dataset part contains the volume ID. -/
def resolveZFSSnapshotNameLoop (snaps : List Snapshot) (snapshotName volumeID : Str) :
    Except Unit Str :=
  match snaps with
  | [] => .error ()
  | snap :: rest =>
    if ('@' :: snapshotName).isSuffixOf snap.id then
      if containsSubstring (snap.id.take (snap.id.length - ('@' :: snapshotName).length)) volumeID then
        .ok snap.id
      else resolveZFSSnapshotNameLoop rest snapshotName volumeID
    else resolveZFSSnapshotNameLoop rest snapshotName volumeID

/-- `resolveZFSSnapshotName` from the source: legacy full path, new-style
volume IDs containing `/`, or a filtered query for legacy plain names. -/
def resolveZFSSnapshotName (query : Except Unit (List Snapshot)) (meta : SnapshotMetadata) :
    Except Unit Str :=
  if '@' ∈ meta.snapshotName then .ok meta.snapshotName
  else if '/' ∈ meta.sourceVolume then .ok (meta.sourceVolume ++ '@' :: meta.snapshotName)
  else
    match query with
    | .error _ => .error ()
    | .ok snaps => resolveZFSSnapshotNameLoop snaps meta.snapshotName meta.sourceVolume

/-- Result of a DeleteSnapshot RPC. -/
inductive DeleteSnapshotResult where
  | okResponse
  | rpcError (code : GrpcCode)
deriving DecidableEq, Repr

/-- `deleteRegularSnapshot` from the source: unresolvable names and appliance
NotFound are success; other delete failures are Internal. -/
def deleteRegularSnapshot (env : RegularDeleteEnv) (meta : SnapshotMetadata) :
    DeleteSnapshotResult :=
  match resolveZFSSnapshotName env.querySnapshotsByName meta with
  | .error _ => .okResponse
  | .ok zfsSnapshotName =>
    match env.deleteSnapshot zfsSnapshotName with
    | some .notFound => .okResponse
    | some .other => .rpcError .internal
    | none => .okResponse

/-- The two user properties read by `deleteDetachedSnapshot` (Go map lookups
default to the empty string when the key is absent). -/
structure DatasetProps where
  managedBy : Str
  detachedSnapshot : Str
deriving DecidableEq, Repr

/-- Environment of `deleteDetachedSnapshot`. -/
structure DetachedDeleteEnv where
  lookupSnapshotByCSIName : Except Unit (Option SnapshotMetadata)
  getDatasetProperties : Str → Except ApiErr DatasetProps
  deleteDataset : Str → Option ApiErr

/-- The dataset path used by `deleteDetachedSnapshot`: the metadata's dataset
name, or the property-based lookup when that is empty (lookup failures leave
the path empty). -/
def resolveDetachedDatasetPath (env : DetachedDeleteEnv) (meta : SnapshotMetadata) : Str :=
  if meta.datasetName ≠ [] then meta.datasetName
  else
    match env.lookupSnapshotByCSIName with
    | .error _ => []
    | .ok none => []
    | .ok (some resolved) => resolved.datasetName

/-- The `dataset.delete` step of `deleteDetachedSnapshot`; the boolean records
that the delete call was issued. -/
def deleteDetachedDatasetCall (env : DetachedDeleteEnv) (datasetPath : Str) :
    DeleteSnapshotResult × Bool :=
  match env.deleteDataset datasetPath with
  | some .notFound => (.okResponse, true)
  | some .other => (.rpcError .internal, true)
  | none => (.okResponse, true)

/-- `deleteDetachedSnapshot` from the source.  The boolean in the result
records whether `dataset.delete` was called. -/
def deleteDetachedSnapshot (env : DetachedDeleteEnv) (meta : SnapshotMetadata) :
    DeleteSnapshotResult × Bool :=
  if resolveDetachedDatasetPath env meta = [] then (.okResponse, false)
  else
    match env.getDatasetProperties (resolveDetachedDatasetPath env meta) with
    | .error .notFound => (.okResponse, false)
    | .error .other => deleteDetachedDatasetCall env (resolveDetachedDatasetPath env meta)
    | .ok props =>
      if props.managedBy ≠ ManagedByValue then (.rpcError .failedPrecondition, false)
      else if props.detachedSnapshot ≠ VolumeContextValueTrue then
        (.rpcError .failedPrecondition, false)
      else deleteDetachedDatasetCall env (resolveDetachedDatasetPath env meta)

/-- `DeleteSnapshot` from the source: validation, decode (failures are
success), then routing to the regular or detached path. -/
def DeleteSnapshot (snapshotID : Str) (regEnv : RegularDeleteEnv)
    (detEnv : DetachedDeleteEnv) : DeleteSnapshotResult × Bool :=
  if snapshotID = [] then (.rpcError .invalidArgument, false)
  else
    match decodeSnapshotID snapshotID with
    | .error _ => (.okResponse, false)
    | .ok meta =>
      if meta.detached then deleteDetachedSnapshot detEnv meta
      else (deleteRegularSnapshot regEnv meta, false)

/-- The scenarios in which the requested snapshot does not exist, for each
path of `DeleteSnapshot`: undecodable ID; unresolvable name or NotFound on
the snapshot delete (regular); unresolvable dataset path, NotFound on the
property read, or NotFound on the dataset delete (detached). -/
def snapshotMissingScenario (snapshotID : Str) (regEnv : RegularDeleteEnv)
    (detEnv : DetachedDeleteEnv) : Prop :=
  match decodeSnapshotID snapshotID with
  | .error _ => True
  | .ok meta =>
    if meta.detached then
      resolveDetachedDatasetPath detEnv meta = [] ∨
      detEnv.getDatasetProperties (resolveDetachedDatasetPath detEnv meta) = .error .notFound ∨
      (detEnv.getDatasetProperties (resolveDetachedDatasetPath detEnv meta) = .error .other ∧
        detEnv.deleteDataset (resolveDetachedDatasetPath detEnv meta) = some .notFound) ∨
      (∃ props, detEnv.getDatasetProperties (resolveDetachedDatasetPath detEnv meta) = .ok props ∧
        props.managedBy = ManagedByValue ∧ props.detachedSnapshot = VolumeContextValueTrue ∧
        detEnv.deleteDataset (resolveDetachedDatasetPath detEnv meta) = some .notFound)
    else
      isErr (resolveZFSSnapshotName regEnv.querySnapshotsByName meta) = true ∨
      (∃ nm, resolveZFSSnapshotName regEnv.querySnapshotsByName meta = .ok nm ∧
        regEnv.deleteSnapshot nm = some .notFound)

/-! ## Node device-size verification -/

/-- The 100 MiB minimum tolerance of `verifySizeMatch`. -/
def minTolerance : Int := 100 * 1024 * 1024

/-- `verifySizeMatch` from the source (sizes are int64 byte counts): a device
at least as large as expected passes; a smaller device passes iff the deficit
is within `max(expected/10, 100 MiB)`. `true` means verification passed. -/
def verifySizeMatch (actualSize expectedCapacity : Int) : Bool :=
  if actualSize ≥ expectedCapacity then true
  else
    let sizeDiff := expectedCapacity - actualSize
    let tolerance := expectedCapacity / 10
    let tolerance := if tolerance < minTolerance then minTolerance else tolerance
    decide (sizeDiff ≤ tolerance)

/-- The staging path (`formatAndMountNVMeDevice`): a failed size verification
is surfaced as FailedPrecondition; a passed one lets staging continue. -/
def formatAndMountSizeGate (verifyPassed : Bool) : Option GrpcCode :=
  if verifyPassed then none else some .failedPrecondition

/-! ## NVMe-oF attach loop (`connectAndStageDevice`) -/

/-- How a single outer attach attempt plays out: connect failure, the
subsystem never turning live, the device never appearing, staging failing
retryably (Unavailable), staging failing with another code (fatal), or
success. -/
inductive AttemptStep where
  | connectFail
  | liveFail
  | deviceFail
  | stageUnavailable
  | stageFail (c : GrpcCode)
  | stageOk
deriving DecidableEq, Repr

/-- Result of `connectAndStageDevice`. -/
inductive StageOutcome where
  | staged
  | rpcError (code : GrpcCode)
deriving DecidableEq, Repr

/-- `maxConnectRetries` from the source: up to 10 connect cycles. -/
def maxConnectRetries : Nat := 10

/-- The outer attach loop: `canceled n` tells whether the parent RPC context
is observed canceled at the start of attempt `n`; `step n` is the outcome of
attempt `n`.  Returns the result and the number of attempts performed.
Connect, wait-live, wait-device and Unavailable staging failures all retry;
other staging failures return immediately; exhaustion yields Internal. -/
def connectAttemptLoop (canceled : Nat → Bool) (step : Nat → AttemptStep) :
    Nat → Nat → StageOutcome × Nat
  | 0, attempt => (.rpcError .internal, attempt - 1)
  | remaining + 1, attempt =>
    if canceled attempt then (.rpcError .deadlineExceeded, attempt - 1)
    else
      match step attempt with
      | .stageOk => (.staged, attempt)
      | .stageFail c => (.rpcError c, attempt)
      | _ => connectAttemptLoop canceled step remaining (attempt + 1)

/-- `connectAndStageDevice` from the source: runs the attach loop for
`maxConnectRetries` attempts starting at attempt 1. -/
def connectAndStageDevice (canceled : Nat → Bool) (step : Nat → AttemptStep) :
    StageOutcome × Nat :=
  connectAttemptLoop canceled step maxConnectRetries 1

/-! ## CreateVolume from snapshot: clone-mode routing and detached-snapshot restore -/

/-- `tnsapi.Dataset`: the fields of an appliance dataset used here. -/
structure Dataset where
  name : Str
  id : Str
deriving DecidableEq, Repr

/-- The clone modes of `createVolumeFromSnapshot` (`cloneMode` in the source). -/
inductive CloneMode where
  | detachedSnapshotRestore
  | detached
  | promoted
  | cow
deriving DecidableEq, Repr

/-- The clone-mode switch of `createVolumeFromSnapshot`: a detached snapshot
source always routes to the restore path; otherwise the StorageClass flags
pick detached, promoted, or COW (with detached winning when both flags are
set). -/
def selectCloneMode (detachedSource detachedParam promotedParam : Bool) : CloneMode :=
  let promotedParam := if detachedParam && promotedParam then false else promotedParam
  if detachedSource then .detachedSnapshotRestore
  else if detachedParam then .detached
  else if promotedParam then .promoted
  else .cow

/-- Appliance calls issued by the clone/restore executors. -/
inductive ApiCall where
  | querySnapshotsCall (dataset : Str)
  | createSnapshotCall (dataset name : Str)
  | cloneSnapshotCall (snapshot target : Str)
  | promoteDatasetCall (dataset : Str)
  | deleteSnapshotCall (name : Str)
  | deleteDatasetCall (dataset : Str)
  | replicationCall (source target : Str)
  | setDatasetPropertiesCall (dataset : Str)
deriving DecidableEq, Repr

/-- `cloneParameters` from the source. -/
structure CloneParameters where
  pool : Str
  parentDataset : Str
  newVolumeName : Str
  newDatasetName : Str

/-- The `csi-restore-for-` temporary-snapshot name prefix of
`executeDetachedSnapshotRestore`. -/
def csiRestoreForStr : Str := "csi-restore-for-".data

/-- Environment of `executeDetachedSnapshotRestore`. -/
structure RestoreEnv where
  querySnapshotsByDataset : Except Unit (List Snapshot)
  createSnapshot : Except Unit Unit
  cloneSnapshot : Except Unit Dataset

/-- The idempotency check of `executeDetachedSnapshotRestore`: whether the
temporary restore snapshot already exists on the detached-snapshot dataset
(query failures are treated as "no"). -/
def restoreTempSnapshotExists (env : RestoreEnv) (meta : SnapshotMetadata)
    (params : CloneParameters) : Bool :=
  match env.querySnapshotsByDataset with
  | .error _ => false
  | .ok snaps =>
    snaps.any (fun s =>
      s.name == meta.datasetName ++ '@' :: (csiRestoreForStr ++ params.newVolumeName))

/-- `executeDetachedSnapshotRestore` from the source: ensure the temporary
snapshot `csi-restore-for-<target>` exists on the detached-snapshot dataset,
COW-clone from it, never promote, never delete the temporary snapshot. -/
def executeDetachedSnapshotRestore (env : RestoreEnv) (meta : SnapshotMetadata)
    (params : CloneParameters) : Except GrpcCode Dataset × List ApiCall :=
  if restoreTempSnapshotExists env meta params then
    match env.cloneSnapshot with
    | .error _ => (.error .internal,
        [.querySnapshotsCall meta.datasetName,
         .cloneSnapshotCall (meta.datasetName ++ '@' :: (csiRestoreForStr ++ params.newVolumeName))
           params.newDatasetName])
    | .ok ds => (.ok ds,
        [.querySnapshotsCall meta.datasetName,
         .cloneSnapshotCall (meta.datasetName ++ '@' :: (csiRestoreForStr ++ params.newVolumeName))
           params.newDatasetName])
  else
    match env.createSnapshot with
    | .error _ => (.error .internal,
        [.querySnapshotsCall meta.datasetName,
         .createSnapshotCall meta.datasetName (csiRestoreForStr ++ params.newVolumeName)])
    | .ok _ =>
      match env.cloneSnapshot with
      | .error _ => (.error .internal,
          [.querySnapshotsCall meta.datasetName,
           .createSnapshotCall meta.datasetName (csiRestoreForStr ++ params.newVolumeName),
           .cloneSnapshotCall (meta.datasetName ++ '@' :: (csiRestoreForStr ++ params.newVolumeName))
             params.newDatasetName])
      | .ok ds => (.ok ds,
          [.querySnapshotsCall meta.datasetName,
           .createSnapshotCall meta.datasetName (csiRestoreForStr ++ params.newVolumeName),
           .cloneSnapshotCall (meta.datasetName ++ '@' :: (csiRestoreForStr ++ params.newVolumeName))
             params.newDatasetName])

/-- Concrete environment for the C7 witness: empty snapshot list, snapshot
creation and clone both succeeding. -/
def restoreWitnessEnv : RestoreEnv :=
  { querySnapshotsByDataset := .ok []
    createSnapshot := .ok ()
    cloneSnapshot := .ok ⟨"tank/pvc-clone".data, "tank/pvc-clone".data⟩ }

/-- Concrete detached-snapshot metadata for the C7 witness. -/
def restoreWitnessMeta : SnapshotMetadata :=
  { snapshotName := "snap-dr".data, sourceVolume := "tank/k8s/vol1".data,
    datasetName := "tank/csi-detached-snapshots/snap-dr".data,
    protocol := ProtocolNFS, createdAt := 0, detached := true }

/-- Concrete clone parameters for the C7 witness. -/
def restoreWitnessParams : CloneParameters :=
  { pool := "tank".data, parentDataset := "tank".data,
    newVolumeName := "pvc-clone".data, newDatasetName := "tank/pvc-clone".data }

/-! ## Detached CreateSnapshot (`createDetachedSnapshot`) -/

/-- `extractPoolFromDataset` from the source: the first `/`-separated
component of a dataset path. -/
def extractPoolFromDataset (dataset : Str) : Str :=
  match splitChar '/' dataset with
  | [] => []
  | h :: _ => h

/-- The parent-dataset determination at the top of `createDetachedSnapshot`:
explicit parameter, else `<pool>/csi-detached-snapshots` with the pool taken
from the parameter or from the source dataset; InvalidArgument when no pool
can be determined. -/
def determineDetachedParentDataset (sourceDataset pool detachedParentDataset : Str) :
    Except GrpcCode Str :=
  if detachedParentDataset ≠ [] then .ok detachedParentDataset
  else
    let pool2 := if pool ≠ [] then pool else extractPoolFromDataset sourceDataset
    if pool2 = [] then .error .invalidArgument
    else .ok (pool2 ++ '/' :: DefaultDetachedSnapshotsFolder)

/-- Environment of `createDetachedSnapshot`; promote and temp-snapshot-delete
outcomes are ignored by the code, so only the outcome-relevant calls appear. -/
structure DetachedCreateEnv where
  ensureParentDataset : Except Unit Unit
  queryAllDatasets : Except Unit (List Dataset)
  createTempSnapshot : Except Unit Unit
  runReplication : Except Unit Unit
  setDatasetProperties : Except Unit Unit
  tempSnapshotName : Str
  now : Int

/-- The idempotency probe of `createDetachedSnapshot`: whether the target
dataset already exists (query failures are only logged). -/
def detachedTargetExists (env : DetachedCreateEnv) (target : Str) : Bool :=
  match env.queryAllDatasets with
  | .error _ => false
  | .ok l => l.any (fun ds => ds.name == target)

/-- `createDetachedSnapshot` from the source, with its appliance-call trace:
parent determination, idempotent return when the target exists, temp snapshot,
replication (cleanup on failure), promote (error ignored), replicated-temp
cleanup (error ignored), property setting (cleanup and failure on error),
ID encoding, and the deferred source-temp-snapshot cleanup. -/
def createDetachedSnapshot (env : DetachedCreateEnv)
    (snapshotName sourceVolumeID sourceDataset protocol pool detachedParentDataset : Str) :
    CreateSnapshotResult × List ApiCall :=
  match determineDetachedParentDataset sourceDataset pool detachedParentDataset with
  | .error c => (.rpcError c, [])
  | .ok parent =>
    match env.ensureParentDataset with
    | .error _ => (.rpcError .internal, [])
    | .ok _ =>
      if detachedTargetExists env (parent ++ '/' :: snapshotName) then
        match encodeSnapshotID
            { snapshotName := snapshotName, sourceVolume := sourceVolumeID,
              datasetName := parent ++ '/' :: snapshotName, protocol := protocol,
              createdAt := env.now, detached := true } with
        | .error _ => (.rpcError .internal, [])
        | .ok sid => (.success sid sourceVolumeID true, [])
      else
        match env.createTempSnapshot with
        | .error _ => (.rpcError .internal,
            [.createSnapshotCall sourceDataset env.tempSnapshotName])
        | .ok _ =>
          match env.runReplication with
          | .error _ => (.rpcError .internal,
              [.createSnapshotCall sourceDataset env.tempSnapshotName,
               .replicationCall sourceDataset (parent ++ '/' :: snapshotName),
               .deleteDatasetCall (parent ++ '/' :: snapshotName),
               .deleteSnapshotCall (sourceDataset ++ '@' :: env.tempSnapshotName)])
          | .ok _ =>
            match env.setDatasetProperties with
            | .error _ => (.rpcError .internal,
                [.createSnapshotCall sourceDataset env.tempSnapshotName,
                 .replicationCall sourceDataset (parent ++ '/' :: snapshotName),
                 .promoteDatasetCall (parent ++ '/' :: snapshotName),
                 .deleteSnapshotCall ((parent ++ '/' :: snapshotName) ++ '@' :: env.tempSnapshotName),
                 .setDatasetPropertiesCall (parent ++ '/' :: snapshotName),
                 .deleteDatasetCall (parent ++ '/' :: snapshotName),
                 .deleteSnapshotCall (sourceDataset ++ '@' :: env.tempSnapshotName)])
            | .ok _ =>
              match encodeSnapshotID
                  { snapshotName := snapshotName, sourceVolume := sourceVolumeID,
                    datasetName := parent ++ '/' :: snapshotName, protocol := protocol,
                    createdAt := env.now, detached := true } with
              | .error _ => (.rpcError .internal,
                  [.createSnapshotCall sourceDataset env.tempSnapshotName,
                   .replicationCall sourceDataset (parent ++ '/' :: snapshotName),
                   .promoteDatasetCall (parent ++ '/' :: snapshotName),
                   .deleteSnapshotCall ((parent ++ '/' :: snapshotName) ++ '@' :: env.tempSnapshotName),
                   .setDatasetPropertiesCall (parent ++ '/' :: snapshotName),
                   .deleteSnapshotCall (sourceDataset ++ '@' :: env.tempSnapshotName)])
              | .ok sid => (.success sid sourceVolumeID true,
                  [.createSnapshotCall sourceDataset env.tempSnapshotName,
                   .replicationCall sourceDataset (parent ++ '/' :: snapshotName),
                   .promoteDatasetCall (parent ++ '/' :: snapshotName),
                   .deleteSnapshotCall ((parent ++ '/' :: snapshotName) ++ '@' :: env.tempSnapshotName),
                   .setDatasetPropertiesCall (parent ++ '/' :: snapshotName),
                   .deleteSnapshotCall (sourceDataset ++ '@' :: env.tempSnapshotName)])

/-! ## Unfiltered ListSnapshots (`listAllSnapshots`) -/

/-- Modelled from the spec: the `managed_by` user-property key of the CSI
property schema; the constant itself is declared outside `src/`. -/
def PropertyManagedBy : Str := "managed_by".data

/-- A CSI-managed dataset as returned by the property search, with the user
properties `listAllSnapshots` reads (a missing key is `none`). -/
structure DatasetWithProps where
  id : Str
  detachedSnapshotProp : Option Str
  csiVolumeNameProp : Option Str
  protocolProp : Option Str
deriving DecidableEq, Repr

/-- The appliance queries `listAllSnapshots` can issue. -/
inductive SnapQuery where
  | findDatasetsByProperty (key value : Str)
  | snapshotQueryByDataset (dataset : Str)
  | snapshotQueryUnfiltered
deriving DecidableEq, Repr

/-- The sequence of appliance queries issued by `listAllSnapshots`: first the
property search for managed datasets; on success, one dataset-filtered
snapshot query per managed dataset that is not marked as a detached snapshot
(those are skipped).  No other query is ever issued. -/
def listAllSnapshotsQueries (findResult : Except Unit (List DatasetWithProps)) :
    List SnapQuery :=
  match findResult with
  | .error _ => [.findDatasetsByProperty PropertyManagedBy ManagedByValue]
  | .ok datasets =>
    .findDatasetsByProperty PropertyManagedBy ManagedByValue ::
      ((datasets.filter
          (fun ds => !(ds.detachedSnapshotProp == some VolumeContextValueTrue))).map
        (fun ds => .snapshotQueryByDataset ds.id))

theorem splitAtFirstChar_eq_none (c : Char) (s : Str) (h : c ∉ s) :
    splitAtFirstChar c s = none := by
  induction s with
  | nil => rfl
  | cons x xs ih =>
    simp only [List.mem_cons, not_or] at h
    simp [splitAtFirstChar, Ne.symm h.1, ih h.2]

theorem splitAtFirstChar_append (c : Char) (p r : Str) (h : c ∉ p) :
    splitAtFirstChar c (p ++ c :: r) = some (p, r) := by
  induction p with
  | nil => simp [splitAtFirstChar]
  | cons x xs ih =>
    simp only [List.mem_cons, not_or] at h
    simp [splitAtFirstChar, Ne.symm h.1, ih h.2]

theorem splitAtLastChar_eq_none (c : Char) (s : Str) (h : c ∉ s) :
    splitAtLastChar c s = none := by
  unfold splitAtLastChar
  rw [splitAtFirstChar_eq_none]
  simpa using h

theorem splitAtLastChar_append (c : Char) (v n : Str) (h : c ∉ n) :
    splitAtLastChar c (v ++ c :: n) = some (v, n) := by
  unfold splitAtLastChar
  have hrev : (v ++ c :: n).reverse = n.reverse ++ c :: v.reverse := by
    simp
  rw [hrev, splitAtFirstChar_append c n.reverse v.reverse (by simpa using h)]
  simp

theorem isPrefixOf_append_self (p s : Str) : p.isPrefixOf (p ++ s) = true := by
  induction p with
  | nil => simp [List.isPrefixOf]
  | cons a as ih => simp [List.isPrefixOf, ih]

/-- For metadata with no `@` in the snapshot name, the extracted short name is
the name itself. -/
theorem extractShortSnapshotName_no_at (s : Str) (h : '@' ∉ s) :
    extractShortSnapshotName s = s := by
  unfold extractShortSnapshotName
  rw [splitAtLastChar_eq_none '@' s h]

/-- Decoding the compact body produced by the encoder recovers the protocol,
volume and (short) snapshot name. -/
theorem decodeCompact_encode_base (p v n : Str)
    (hp : p = ProtocolNFS ∨ p = ProtocolNVMeOF ∨ p = ProtocolISCSI)
    (hv : v ≠ []) (hn : n ≠ []) (hna : '@' ∉ n) :
    decodeCompactSnapshotID (p ++ ':' :: (v ++ '@' :: n)) =
      .ok { protocol := p, sourceVolume := v, snapshotName := n,
            datasetName := [], createdAt := 0, detached := false } := by
  have hcolon : ':' ∉ p := by
    rcases hp with h | h | h <;> subst h <;> decide
  unfold decodeCompactSnapshotID
  rw [splitAtFirstChar_append ':' p (v ++ '@' :: n) hcolon]
  have hvalid : ¬(p ≠ ProtocolNFS ∧ p ≠ ProtocolNVMeOF ∧ p ≠ ProtocolISCSI) := by
    rcases hp with h | h | h <;> simp [h]
  simp [hvalid, splitAtLastChar_append '@' v n hna, hv, hn]

theorem detachedPrefixStr_not_prefix_cons (c : Char) (hc : c ≠ 'd') (rest : Str) :
    DetachedSnapshotPrefixStr.isPrefixOf (c :: rest) = false := by
  have hD : DetachedSnapshotPrefixStr = 'd' :: "etached:".data := rfl
  have hb : ('d' == c) = false := by
    cases h : ('d' == c)
    · rfl
    · exact absurd (eq_of_beq h).symm hc
  rw [hD]
  simp [List.isPrefixOf, hb]

/-- C1 (amended).  The snapshot-ID codec round-trips exactly on the metadata
shapes the decoder can produce: valid protocol, non-empty source volume,
non-empty snapshot name without `@`, empty dataset name, zero creation time.
Moreover `encodeSnapshotID` fails iff the protocol is empty, the source volume
is empty, or the part of the snapshot name after the last `@` is empty. -/
theorem snapshot_id_codec_roundtrip (m : SnapshotMetadata)
    (hp : m.protocol = ProtocolNFS ∨ m.protocol = ProtocolNVMeOF ∨ m.protocol = ProtocolISCSI)
    (hv : m.sourceVolume ≠ [])
    (hn : m.snapshotName ≠ [])
    (hna : '@' ∉ m.snapshotName)
    (hd : m.datasetName = [])
    (hc : m.createdAt = 0) :
    (∃ s, encodeSnapshotID m = .ok s ∧ decodeSnapshotID s = .ok m) ∧
    (∀ m2 : SnapshotMetadata, isErr (encodeSnapshotID m2) = true ↔
      (m2.protocol = [] ∨ m2.sourceVolume = [] ∨
        extractShortSnapshotName m2.snapshotName = [])) := by
  obtain ⟨sn, sv, dn, pr, ca, det⟩ := m
  dsimp only at hp hv hn hna hd hc
  subst hd
  subst hc
  constructor
  · have hpne : pr ≠ [] := by rcases hp with h | h | h <;> subst h <;> decide
    have hshort := extractShortSnapshotName_no_at sn hna
    have hbase := decodeCompact_encode_base pr sv sn hp hv hn hna
    cases det with
    | false =>
      refine ⟨pr ++ ':' :: sv ++ '@' :: sn, ?_, ?_⟩
      · simp [encodeSnapshotID, hpne, hv, hshort, hn]
      · have hnp : DetachedSnapshotPrefixStr.isPrefixOf (pr ++ ':' :: sv ++ '@' :: sn) = false := by
          rcases hp with h | h | h <;> subst h <;>
            exact detachedPrefixStr_not_prefix_cons _ (by decide) _
        unfold decodeSnapshotID
        rw [hnp]
        simp [hbase]
    | true =>
      refine ⟨DetachedSnapshotPrefixStr ++ (pr ++ ':' :: sv ++ '@' :: sn), ?_, ?_⟩
      · simp [encodeSnapshotID, hpne, hv, hshort, hn]
      · unfold decodeSnapshotID
        rw [isPrefixOf_append_self]
        simp [List.drop_left, hbase]
  · intro m2
    obtain ⟨sn2, sv2, dn2, pr2, ca2, det2⟩ := m2
    dsimp only
    by_cases h1 : pr2 = [] <;> by_cases h2 : sv2 = [] <;>
      by_cases h3 : extractShortSnapshotName sn2 = [] <;>
      cases det2 <;> simp [encodeSnapshotID, isErr, h1, h2, h3]

/-- C1 witness: the round-trip theorem applied at a concrete detached metadata. -/
theorem snapshot_id_codec_roundtrip_witness :
    (∃ s, encodeSnapshotID
        { snapshotName := "snap-dr".data, sourceVolume := "tank/k8s/vol1".data,
          datasetName := [], protocol := ProtocolNVMeOF, createdAt := 0,
          detached := true } = .ok s ∧
      decodeSnapshotID s = .ok
        { snapshotName := "snap-dr".data, sourceVolume := "tank/k8s/vol1".data,
          datasetName := [], protocol := ProtocolNVMeOF, createdAt := 0,
          detached := true }) ∧
    (∀ m2 : SnapshotMetadata, isErr (encodeSnapshotID m2) = true ↔
      (m2.protocol = [] ∨ m2.sourceVolume = [] ∨
        extractShortSnapshotName m2.snapshotName = [])) :=
  snapshot_id_codec_roundtrip
    { snapshotName := "snap-dr".data, sourceVolume := "tank/k8s/vol1".data,
      datasetName := [], protocol := ProtocolNVMeOF, createdAt := 0, detached := true }
    (Or.inr (Or.inl rfl)) (by decide) (by decide) (by decide) rfl rfl

/-- C1 counterexample: the metadata actually built by `createRegularSnapshot`
(full `dataset@snap` snapshot name, non-empty dataset name, real timestamp)
is well-formed, encodes successfully, yet decoding does not return it:
the dataset name, the creation time, and the full ZFS snapshot path are lost. -/
theorem snapshot_id_codec_counterexample :
    ∃ s, encodeSnapshotID
        { snapshotName := "tank/k8s/vol@snap1".data, sourceVolume := "tank/k8s/vol".data,
          datasetName := "tank/k8s/vol".data, protocol := ProtocolNFS,
          createdAt := 1700000000, detached := false } = .ok s ∧
      decodeSnapshotID s ≠ .ok
        { snapshotName := "tank/k8s/vol@snap1".data, sourceVolume := "tank/k8s/vol".data,
          datasetName := "tank/k8s/vol".data, protocol := ProtocolNFS,
          createdAt := 1700000000, detached := false } := by
  refine ⟨"nfs:tank/k8s/vol@snap1".data, by decide, by decide⟩

theorem probe_eq_of_firstWellFormed (snaps : List Snapshot) (d ds fullId : Str)
    (h : firstWellFormedSnapshot snaps = some (ds, fullId)) :
    createRegularSnapshotProbe snaps d =
      if ds = d then .returnExisting fullId else .alreadyExists ds := by
  induction snaps with
  | nil => simp [firstWellFormedSnapshot] at h
  | cons s rest ih =>
    unfold firstWellFormedSnapshot at h
    unfold createRegularSnapshotProbe
    cases hsplit : splitChar '@' s.id with
    | nil => rw [hsplit] at h; exact ih h
    | cons a t =>
      cases t with
      | nil => rw [hsplit] at h; exact ih h
      | cons b t2 =>
        cases t2 with
        | nil =>
          rw [hsplit] at h
          simp only [Option.some_inj, Prod.mk.injEq] at h
          dsimp only
          rw [h.1, h.2]
        | cons c t3 => rw [hsplit] at h; exact ih h

theorem encodeSnapshotID_ok (m : SnapshotMetadata) (h1 : m.protocol ≠ [])
    (h2 : m.sourceVolume ≠ []) (h3 : extractShortSnapshotName m.snapshotName ≠ []) :
    ∃ s, encodeSnapshotID m = .ok s := by
  unfold encodeSnapshotID
  simp only [if_neg h1, if_neg h2, if_neg h3]
  split <;> exact ⟨_, rfl⟩

/-- C2 (amended).  The global-uniqueness probe of `createRegularSnapshot`
decides by the FIRST well-formed entry of the name-filtered query result:
if its dataset equals the source dataset the existing snapshot is returned
(idempotent success); if it lies on a different dataset the RPC fails with
AlreadyExists. -/
theorem create_snapshot_global_uniqueness (env : RegularCreateEnv)
    (snapshotName sourceVolumeID datasetName protocol : Str)
    (snaps : List Snapshot) (hq : env.querySnapshotsByName = .ok snaps)
    (ds fullId : Str) (hfw : firstWellFormedSnapshot snaps = some (ds, fullId))
    (hpr : protocol ≠ []) (hsv : sourceVolumeID ≠ [])
    (hsn : extractShortSnapshotName fullId ≠ []) :
    (ds = datasetName → ∃ sid,
      encodeSnapshotID
        { snapshotName := fullId, sourceVolume := sourceVolumeID,
          datasetName := datasetName, protocol := protocol,
          createdAt := env.now, detached := false } = .ok sid ∧
      createRegularSnapshot env snapshotName sourceVolumeID datasetName protocol =
        .success sid sourceVolumeID true) ∧
    (ds ≠ datasetName → createRegularSnapshot env snapshotName sourceVolumeID datasetName protocol =
        .rpcError .alreadyExists) := by
  have hprobe : regularProbeOutcome env datasetName =
      if ds = datasetName then .returnExisting fullId else .alreadyExists ds := by
    unfold regularProbeOutcome
    rw [hq]
    exact probe_eq_of_firstWellFormed snaps datasetName ds fullId hfw
  constructor
  · intro hds
    obtain ⟨sid, hsid⟩ := encodeSnapshotID_ok
      { snapshotName := fullId, sourceVolume := sourceVolumeID,
        datasetName := datasetName, protocol := protocol,
        createdAt := env.now, detached := false } hpr hsv hsn
    refine ⟨sid, hsid, ?_⟩
    unfold createRegularSnapshot
    rw [hprobe, if_pos hds]
    dsimp only
    rw [hsid]
  · intro hds
    unfold createRegularSnapshot
    rw [hprobe, if_neg hds]

/-- C2 witness: concrete instantiation with a single same-dataset entry. -/
theorem create_snapshot_global_uniqueness_witness :
    (("tank/k8s/vol".data : Str) = "tank/k8s/vol".data → ∃ sid,
      encodeSnapshotID
        { snapshotName := "tank/k8s/vol@snap1".data, sourceVolume := "tank/k8s/vol".data,
          datasetName := "tank/k8s/vol".data, protocol := ProtocolNFS,
          createdAt := (0 : Int), detached := false } = .ok sid ∧
      createRegularSnapshot
        { querySnapshotsByName := .ok [⟨"tank/k8s/vol@snap1".data, [], []⟩],
          createSnapshot := .error (), setSnapshotProperties := .ok (), now := 0 }
        "snap1".data "tank/k8s/vol".data "tank/k8s/vol".data ProtocolNFS =
        .success sid "tank/k8s/vol".data true) ∧
    (("tank/k8s/vol".data : Str) ≠ "tank/k8s/vol".data →
      createRegularSnapshot
        { querySnapshotsByName := .ok [⟨"tank/k8s/vol@snap1".data, [], []⟩],
          createSnapshot := .error (), setSnapshotProperties := .ok (), now := 0 }
        "snap1".data "tank/k8s/vol".data "tank/k8s/vol".data ProtocolNFS =
        .rpcError .alreadyExists) :=
  create_snapshot_global_uniqueness
    { querySnapshotsByName := .ok [⟨"tank/k8s/vol@snap1".data, [], []⟩],
      createSnapshot := .error (), setSnapshotProperties := .ok (), now := 0 }
    "snap1".data "tank/k8s/vol".data "tank/k8s/vol".data ProtocolNFS
    [⟨"tank/k8s/vol@snap1".data, [], []⟩] rfl
    "tank/k8s/vol".data "tank/k8s/vol@snap1".data (by decide) (by decide) (by decide) (by decide)

/-- C2 counterexample: the query result holds a same-name snapshot on the
requested dataset (`tank/k8s/vol@snap1`), yet because a snapshot on a
DIFFERENT dataset (`other/ds@snap1`) comes first in the appliance's reply,
`createRegularSnapshot` fails with AlreadyExists instead of returning the
existing same-dataset snapshot. -/
theorem create_snapshot_global_uniqueness_counterexample :
    splitChar '@' ("tank/k8s/vol@snap1".data) = ["tank/k8s/vol".data, "snap1".data] ∧
    createRegularSnapshot
      { querySnapshotsByName :=
          .ok [⟨"other/ds@snap1".data, [], []⟩, ⟨"tank/k8s/vol@snap1".data, [], []⟩],
        createSnapshot := .error (), setSnapshotProperties := .ok (), now := 0 }
      "snap1".data "tank/k8s/vol".data "tank/k8s/vol".data ProtocolNFS =
      .rpcError .alreadyExists := by
  constructor
  · decide
  · decide

/-- C10 (confirmed).  In the regular path, once the appliance snapshot-create
call has succeeded, a failure of `SetSnapshotProperties` is swallowed: the RPC
still returns success, so a successful regular CreateSnapshot does not
guarantee that the CSI properties are present. -/
theorem regular_snapshot_property_failure_swallowed (env : RegularCreateEnv)
    (snapshotName sourceVolumeID datasetName protocol : Str) (snap : Snapshot)
    (hpo : regularProbeOutcome env datasetName = .proceed)
    (hc : env.createSnapshot = .ok snap)
    (hprops : env.setSnapshotProperties = .error ())
    (hpr : protocol ≠ []) (hsv : sourceVolumeID ≠ [])
    (hsn : extractShortSnapshotName snap.id ≠ []) :
    ∃ sid, createRegularSnapshot env snapshotName sourceVolumeID datasetName protocol =
      .success sid sourceVolumeID true := by
  obtain ⟨sid, hsid⟩ := encodeSnapshotID_ok
    { snapshotName := snap.id, sourceVolume := sourceVolumeID,
      datasetName := datasetName, protocol := protocol,
      createdAt := env.now, detached := false } hpr hsv hsn
  refine ⟨sid, ?_⟩
  unfold createRegularSnapshot
  rw [hpo]
  dsimp only
  rw [hc]
  dsimp only
  rw [hsid]

/-- C10 witness: concrete environment whose property-set call fails, yet the
RPC succeeds. -/
theorem regular_snapshot_property_failure_swallowed_witness :
    ∃ sid, createRegularSnapshot
      { querySnapshotsByName := .ok [], createSnapshot := .ok ⟨"tank/k8s/vol@snap1".data, "snap1".data, "tank/k8s/vol".data⟩,
        setSnapshotProperties := .error (), now := 0 }
      "snap1".data "tank/k8s/vol".data "tank/k8s/vol".data ProtocolNFS =
      .success sid "tank/k8s/vol".data true :=
  regular_snapshot_property_failure_swallowed
    { querySnapshotsByName := .ok [], createSnapshot := .ok ⟨"tank/k8s/vol@snap1".data, "snap1".data, "tank/k8s/vol".data⟩,
      setSnapshotProperties := .error (), now := 0 }
    "snap1".data "tank/k8s/vol".data "tank/k8s/vol".data ProtocolNFS
    ⟨"tank/k8s/vol@snap1".data, "snap1".data, "tank/k8s/vol".data⟩
    rfl rfl rfl (by decide) (by decide) (by decide)

/-- C3 (amended).  For every NON-EMPTY snapshot ID whose snapshot does not
exist — undecodable IDs, unresolvable names or dataset paths, and appliance
NotFound on the delete call, in both the regular and the detached path —
`DeleteSnapshot` returns success. -/
theorem delete_snapshot_idempotent (snapshotID : Str) (regEnv : RegularDeleteEnv)
    (detEnv : DetachedDeleteEnv) (hne : snapshotID ≠ [])
    (hmiss : snapshotMissingScenario snapshotID regEnv detEnv) :
    (DeleteSnapshot snapshotID regEnv detEnv).1 = .okResponse := by
  unfold DeleteSnapshot
  unfold snapshotMissingScenario at hmiss
  rw [if_neg hne]
  cases hdec : decodeSnapshotID snapshotID with
  | error e => rfl
  | ok meta =>
    rw [hdec] at hmiss
    dsimp only at hmiss ⊢
    cases hdet : meta.detached with
    | false =>
      rw [hdet, if_neg Bool.false_ne_true] at hmiss
      rw [if_neg Bool.false_ne_true]
      dsimp only
      unfold deleteRegularSnapshot
      rcases hmiss with hres | ⟨nm, hnm, hdel⟩
      · cases hr : resolveZFSSnapshotName regEnv.querySnapshotsByName meta with
        | error e => rfl
        | ok z => rw [hr] at hres; simp [isErr] at hres
      · rw [hnm]
        dsimp only
        rw [hdel]
    | true =>
      rw [hdet, if_pos rfl] at hmiss
      rw [if_pos rfl]
      unfold deleteDetachedSnapshot
      by_cases hp : resolveDetachedDatasetPath detEnv meta = []
      · rw [if_pos hp]
      · rw [if_neg hp]
        rcases hmiss with hpath | hnf | ⟨hother, hdel⟩ | ⟨props, hok, hm, hd, hdel⟩
        · exact absurd hpath hp
        · rw [hnf]
        · rw [hother]
          unfold deleteDetachedDatasetCall
          rw [hdel]
        · rw [hok]
          dsimp only
          rw [if_neg (fun hcon => hcon hm), if_neg (fun hcon => hcon hd)]
          unfold deleteDetachedDatasetCall
          rw [hdel]

/-- C3 witness: a detached snapshot ID whose dataset cannot be resolved
(property lookup finds nothing) is deleted successfully. -/
theorem delete_snapshot_idempotent_witness :
    (DeleteSnapshot "detached:nfs:vol1@snap-dr".data
      ⟨.error (), fun _ => none⟩
      ⟨.ok none, fun _ => .error .notFound, fun _ => none⟩).1 = .okResponse :=
  delete_snapshot_idempotent "detached:nfs:vol1@snap-dr".data
    ⟨.error (), fun _ => none⟩
    ⟨.ok none, fun _ => .error .notFound, fun _ => none⟩
    (by decide)
    (by
      have hdec : decodeSnapshotID ("detached:nfs:vol1@snap-dr".data) =
          Except.ok { snapshotName := "snap-dr".data, sourceVolume := "vol1".data,
                      datasetName := [], protocol := ProtocolNFS, createdAt := 0,
                      detached := true } := by decide
      unfold snapshotMissingScenario
      rw [hdec]
      dsimp only
      rw [if_pos rfl]
      left
      decide)

/-- C3 counterexample: the empty snapshot ID fails to decode (so its snapshot
certainly does not exist), yet `DeleteSnapshot` returns InvalidArgument, not
success. -/
theorem delete_snapshot_idempotent_counterexample :
    isErr (decodeSnapshotID ([] : Str)) = true ∧
    (DeleteSnapshot []
      ⟨.error (), fun _ => none⟩
      ⟨.ok none, fun _ => .error .notFound, fun _ => none⟩).1 =
      .rpcError .invalidArgument := by
  constructor
  · decide
  · rfl

/-- C4 (amended).  When the property read on the resolved detached-snapshot
dataset SUCCEEDS, `deleteDetachedSnapshot` verifies `managed_by` equals the
sentinel and `detached_snapshot = true` before deleting, and refuses with
FailedPrecondition — issuing no delete call — whenever either check fails.
(When the property read fails with a non-NotFound error, the engine proceeds
to delete without verification; see the counterexample.) -/
theorem detached_delete_ownership_sentinel (meta : SnapshotMetadata)
    (env : DetachedDeleteEnv) (props : DatasetProps)
    (hp : resolveDetachedDatasetPath env meta ≠ [])
    (hok : env.getDatasetProperties (resolveDetachedDatasetPath env meta) = .ok props)
    (hbad : props.managedBy ≠ ManagedByValue ∨ props.detachedSnapshot ≠ VolumeContextValueTrue) :
    deleteDetachedSnapshot env meta = (.rpcError .failedPrecondition, false) := by
  unfold deleteDetachedSnapshot
  rw [if_neg hp, hok]
  dsimp only
  by_cases hmb : props.managedBy ≠ ManagedByValue
  · rw [if_pos hmb]
  · rw [if_neg hmb, if_pos (hbad.resolve_left hmb)]

/-- C4 witness: a dataset whose `managed_by` is not the sentinel is refused
with FailedPrecondition and no delete call is issued. -/
theorem detached_delete_ownership_sentinel_witness :
    deleteDetachedSnapshot
      ⟨.error (), fun _ => .ok ⟨"someone-else".data, VolumeContextValueTrue⟩, fun _ => none⟩
      { snapshotName := "snap-dr".data, sourceVolume := "vol1".data,
        datasetName := "tank/csi-detached-snapshots/snap-dr".data, protocol := ProtocolNFS,
        createdAt := 0, detached := true } = (.rpcError .failedPrecondition, false) :=
  detached_delete_ownership_sentinel
    { snapshotName := "snap-dr".data, sourceVolume := "vol1".data,
      datasetName := "tank/csi-detached-snapshots/snap-dr".data, protocol := ProtocolNFS,
      createdAt := 0, detached := true }
    ⟨.error (), fun _ => .ok ⟨"someone-else".data, VolumeContextValueTrue⟩, fun _ => none⟩
    ⟨"someone-else".data, VolumeContextValueTrue⟩
    (by decide) rfl (Or.inl (by decide))

/-- C4 counterexample: when the property read fails with a non-NotFound error,
`deleteDetachedSnapshot` issues `dataset.delete` anyway — the delete proceeds
WITHOUT any successful `managed_by` verification (and returns success), so the
engine does not always verify the sentinel before deleting. -/
theorem detached_delete_ownership_sentinel_counterexample :
    deleteDetachedSnapshot
      ⟨.error (), fun _ => .error .other, fun _ => none⟩
      { snapshotName := "snap-dr".data, sourceVolume := "vol1".data,
        datasetName := "tank/csi-detached-snapshots/snap-dr".data, protocol := ProtocolNFS,
        createdAt := 0, detached := true } = (.okResponse, true) := by
  decide

theorem ite_lt_max (x y : Int) : (if x < y then y else x) = max x y := by
  by_cases h : x < y
  · rw [if_pos h, max_eq_right (le_of_lt h)]
  · rw [if_neg h, max_eq_left (le_of_not_lt h)]

/-- C5 (confirmed).  For every actual size `a` and expected capacity `e > 0`:
verification passes when `a ≥ e`; when `a < e` it passes iff
`e - a ≤ max(e/10, 100 MiB)`; and a failed verification is surfaced as
FailedPrecondition by the staging path. -/
theorem device_size_verification (a e : Int) (he : 0 < e) :
    (a ≥ e → verifySizeMatch a e = true) ∧
    (a < e → (verifySizeMatch a e = true ↔ e - a ≤ max (e / 10) minTolerance)) ∧
    (verifySizeMatch a e = false →
      formatAndMountSizeGate (verifySizeMatch a e) = some .failedPrecondition) := by
  refine ⟨?_, ?_, ?_⟩
  · intro hge
    unfold verifySizeMatch
    rw [if_pos hge]
  · intro hlt
    unfold verifySizeMatch
    rw [if_neg (not_le.mpr hlt)]
    dsimp only
    rw [ite_lt_max]
    rw [max_comm]
    exact decide_eq_true_iff
  · intro hfail
    unfold formatAndMountSizeGate
    rw [hfail]
    rfl

/-- C5 witness: the verification theorem applied at a 10 GiB expected capacity
with the device reporting exactly 1 GiB less. -/
theorem device_size_verification_witness :
    ((9663676416 : Int) ≥ 10737418240 → verifySizeMatch 9663676416 10737418240 = true) ∧
    ((9663676416 : Int) < 10737418240 →
      (verifySizeMatch 9663676416 10737418240 = true ↔
        (10737418240 : Int) - 9663676416 ≤ max ((10737418240 : Int) / 10) minTolerance)) ∧
    (verifySizeMatch 9663676416 10737418240 = false →
      formatAndMountSizeGate (verifySizeMatch 9663676416 10737418240) =
        some .failedPrecondition) :=
  device_size_verification 9663676416 10737418240 (by decide)

theorem connectAttemptLoop_all_deviceFail (canceled : Nat → Bool) (step : Nat → AttemptStep)
    (hnc : ∀ n, canceled n = false) (hdf : ∀ n, step n = .deviceFail) :
    ∀ (r a : Nat), 1 ≤ a →
      connectAttemptLoop canceled step r a = (.rpcError .internal, a + r - 1) := by
  intro r
  induction r with
  | zero =>
    intro a ha
    unfold connectAttemptLoop
    simp
  | succ k ih =>
    intro a ha
    unfold connectAttemptLoop
    rw [hnc a, if_neg Bool.false_ne_true, hdf a]
    dsimp only
    rw [ih (a + 1) (by omega)]
    have : a + 1 + k - 1 = a + (k + 1) - 1 := by omega
    rw [this]

theorem connectAttemptLoop_attempt_bound (canceled : Nat → Bool) (step : Nat → AttemptStep) :
    ∀ (r a : Nat), (connectAttemptLoop canceled step r a).2 ≤ a + r - 1 := by
  intro r
  induction r with
  | zero =>
    intro a
    unfold connectAttemptLoop
    simp
  | succ k ih =>
    intro a
    unfold connectAttemptLoop
    by_cases hc : canceled a = true
    · rw [if_pos hc]
      dsimp only
      omega
    · rw [if_neg hc]
      cases step a <;> dsimp only <;> first
        | omega
        | (refine le_trans (ih (a + 1)) (by omega))

/-- C6 (amended).  With the parent context never canceled and the device never
appearing, `connectAndStageDevice` performs exactly its attempt bound of 10
outer attempts and then fails the RPC with gRPC code INTERNAL (not
DeadlineExceeded); moreover no run of the loop ever exceeds 10 attempts. -/
theorem nvme_attach_retry_bound (canceled : Nat → Bool) (step : Nat → AttemptStep)
    (hnc : ∀ n, canceled n = false) (hdf : ∀ n, step n = .deviceFail) :
    connectAndStageDevice canceled step = (.rpcError .internal, maxConnectRetries) ∧
    (∀ (c2 : Nat → Bool) (s2 : Nat → AttemptStep),
      (connectAndStageDevice c2 s2).2 ≤ maxConnectRetries) := by
  constructor
  · unfold connectAndStageDevice
    rw [connectAttemptLoop_all_deviceFail canceled step hnc hdf maxConnectRetries 1 (by omega)]
    rfl
  · intro c2 s2
    unfold connectAndStageDevice
    exact le_trans (connectAttemptLoop_attempt_bound c2 s2 maxConnectRetries 1) (by omega)

/-- C6 witness: the retry-bound theorem at the concrete never-canceled,
device-never-appears environment. -/
theorem nvme_attach_retry_bound_witness :
    connectAndStageDevice (fun _ => false) (fun _ => .deviceFail) =
      (.rpcError .internal, maxConnectRetries) ∧
    (∀ (c2 : Nat → Bool) (s2 : Nat → AttemptStep),
      (connectAndStageDevice c2 s2).2 ≤ maxConnectRetries) :=
  nvme_attach_retry_bound (fun _ => false) (fun _ => .deviceFail)
    (fun _ => rfl) (fun _ => rfl)

/-- C6 counterexample: with the device never appearing and no cancellation,
the loop exhausts its 10 attempts and returns code INTERNAL — which is not
DeadlineExceeded as the claim states. -/
theorem nvme_attach_retry_bound_counterexample :
    connectAndStageDevice (fun _ => false) (fun _ => .deviceFail) =
      (.rpcError .internal, 10) ∧
    GrpcCode.internal ≠ GrpcCode.deadlineExceeded := by
  constructor
  · rfl
  · decide

/-- C7 (confirmed).  A content source that decodes as detached always routes
to the detached-snapshot restore path, regardless of the promoted/detached
StorageClass flags; the restore constructs the temporary snapshot
`csi-restore-for-<target>` on the detached-snapshot dataset (creating it when
absent), COW-clones the new volume from it, never issues a promote, and never
deletes the temporary snapshot. -/
theorem detached_snapshot_restore (detachedParam promotedParam : Bool)
    (env : RestoreEnv) (meta : SnapshotMetadata) (params : CloneParameters)
    (hdet : meta.detached = true) :
    selectCloneMode meta.detached detachedParam promotedParam = .detachedSnapshotRestore ∧
    (∀ d, (executeDetachedSnapshotRestore env meta params).1 = .ok d →
      ApiCall.cloneSnapshotCall
          (meta.datasetName ++ '@' :: (csiRestoreForStr ++ params.newVolumeName))
          params.newDatasetName ∈ (executeDetachedSnapshotRestore env meta params).2) ∧
    (restoreTempSnapshotExists env meta params = false →
      ∀ d, (executeDetachedSnapshotRestore env meta params).1 = .ok d →
        ApiCall.createSnapshotCall meta.datasetName (csiRestoreForStr ++ params.newVolumeName) ∈
          (executeDetachedSnapshotRestore env meta params).2) ∧
    (∀ ds, ApiCall.promoteDatasetCall ds ∉ (executeDetachedSnapshotRestore env meta params).2) ∧
    (∀ nm, ApiCall.deleteSnapshotCall nm ∉ (executeDetachedSnapshotRestore env meta params).2) := by
  refine ⟨?_, ?_, ?_, ?_, ?_⟩
  · unfold selectCloneMode
    rw [hdet]
    rfl
  · intro d
    unfold executeDetachedSnapshotRestore
    by_cases hex : restoreTempSnapshotExists env meta params = true
    · rw [if_pos hex]
      cases hcl : env.cloneSnapshot <;> dsimp only <;> intro h <;> simp at h ⊢
    · rw [if_neg hex]
      cases hcr : env.createSnapshot <;> dsimp only
      · intro h; simp at h
      · cases hcl : env.cloneSnapshot <;> dsimp only <;> intro h <;> simp at h ⊢
  · intro hnex d
    unfold executeDetachedSnapshotRestore
    rw [if_neg (by rw [hnex]; exact Bool.false_ne_true)]
    cases hcr : env.createSnapshot <;> dsimp only
    · intro h; simp at h
    · cases hcl : env.cloneSnapshot <;> dsimp only <;> intro h <;> simp at h ⊢
  · intro ds
    unfold executeDetachedSnapshotRestore
    by_cases hex : restoreTempSnapshotExists env meta params = true
    · rw [if_pos hex]
      cases hcl : env.cloneSnapshot <;> simp
    · rw [if_neg hex]
      cases hcr : env.createSnapshot
      · simp
      · cases hcl : env.cloneSnapshot <;> simp
  · intro nm
    unfold executeDetachedSnapshotRestore
    by_cases hex : restoreTempSnapshotExists env meta params = true
    · rw [if_pos hex]
      cases hcl : env.cloneSnapshot <;> simp
    · rw [if_neg hex]
      cases hcr : env.createSnapshot
      · simp
      · cases hcl : env.cloneSnapshot <;> simp

/-- C7 witness: the restore theorem at a concrete detached snapshot with both
StorageClass flags set. -/
theorem detached_snapshot_restore_witness :
    selectCloneMode restoreWitnessMeta.detached true true = .detachedSnapshotRestore ∧
    (∀ d, (executeDetachedSnapshotRestore restoreWitnessEnv restoreWitnessMeta restoreWitnessParams).1 = .ok d →
      ApiCall.cloneSnapshotCall
          (restoreWitnessMeta.datasetName ++ '@' ::
            (csiRestoreForStr ++ restoreWitnessParams.newVolumeName))
          restoreWitnessParams.newDatasetName ∈
        (executeDetachedSnapshotRestore restoreWitnessEnv restoreWitnessMeta restoreWitnessParams).2) ∧
    (restoreTempSnapshotExists restoreWitnessEnv restoreWitnessMeta restoreWitnessParams = false →
      ∀ d, (executeDetachedSnapshotRestore restoreWitnessEnv restoreWitnessMeta restoreWitnessParams).1 = .ok d →
        ApiCall.createSnapshotCall restoreWitnessMeta.datasetName
            (csiRestoreForStr ++ restoreWitnessParams.newVolumeName) ∈
          (executeDetachedSnapshotRestore restoreWitnessEnv restoreWitnessMeta restoreWitnessParams).2) ∧
    (∀ ds, ApiCall.promoteDatasetCall ds ∉
      (executeDetachedSnapshotRestore restoreWitnessEnv restoreWitnessMeta restoreWitnessParams).2) ∧
    (∀ nm, ApiCall.deleteSnapshotCall nm ∉
      (executeDetachedSnapshotRestore restoreWitnessEnv restoreWitnessMeta restoreWitnessParams).2) :=
  detached_snapshot_restore true true restoreWitnessEnv restoreWitnessMeta
    restoreWitnessParams rfl

/-- C8 (confirmed).  When the detached-snapshot flow reaches the
property-setting step (target not pre-existing, temp snapshot created,
replication completed) and `SetDatasetProperties` fails, the engine deletes
the target dataset and the RPC fails with Internal — it never returns success
with the properties unset. -/
theorem detached_create_property_failure (env : DetachedCreateEnv)
    (snapshotName sourceVolumeID sourceDataset protocol pool detachedParentDataset parent : Str)
    (hpd : determineDetachedParentDataset sourceDataset pool detachedParentDataset = .ok parent)
    (hens : env.ensureParentDataset = .ok ())
    (hnotex : detachedTargetExists env (parent ++ '/' :: snapshotName) = false)
    (hct : env.createTempSnapshot = .ok ())
    (hrep : env.runReplication = .ok ())
    (hsp : env.setDatasetProperties = .error ()) :
    (createDetachedSnapshot env snapshotName sourceVolumeID sourceDataset protocol pool
        detachedParentDataset).1 = .rpcError .internal ∧
    ApiCall.deleteDatasetCall (parent ++ '/' :: snapshotName) ∈
      (createDetachedSnapshot env snapshotName sourceVolumeID sourceDataset protocol pool
        detachedParentDataset).2 := by
  unfold createDetachedSnapshot
  rw [hpd]
  dsimp only
  rw [hens]
  dsimp only
  rw [if_neg (by rw [hnotex]; exact Bool.false_ne_true)]
  rw [hct]
  dsimp only
  rw [hrep]
  dsimp only
  rw [hsp]
  exact ⟨rfl, by simp⟩

/-- C8 witness: the atomicity theorem at a concrete environment whose
property-set call fails. -/
theorem detached_create_property_failure_witness :
    (createDetachedSnapshot
      { ensureParentDataset := .ok (), queryAllDatasets := .ok [],
        createTempSnapshot := .ok (), runReplication := .ok (),
        setDatasetProperties := .error (), tempSnapshotName := "csi-detached-temp-1".data,
        now := 0 }
      "snap-dr".data "tank/k8s/vol1".data "tank/k8s/vol1".data ProtocolNFS
      "tank".data []).1 = .rpcError .internal ∧
    ApiCall.deleteDatasetCall ("tank/csi-detached-snapshots".data ++ '/' :: "snap-dr".data) ∈
      (createDetachedSnapshot
        { ensureParentDataset := .ok (), queryAllDatasets := .ok [],
          createTempSnapshot := .ok (), runReplication := .ok (),
          setDatasetProperties := .error (), tempSnapshotName := "csi-detached-temp-1".data,
          now := 0 }
        "snap-dr".data "tank/k8s/vol1".data "tank/k8s/vol1".data ProtocolNFS
        "tank".data []).2 :=
  detached_create_property_failure
    { ensureParentDataset := .ok (), queryAllDatasets := .ok [],
      createTempSnapshot := .ok (), runReplication := .ok (),
      setDatasetProperties := .error (), tempSnapshotName := "csi-detached-temp-1".data,
      now := 0 }
    "snap-dr".data "tank/k8s/vol1".data "tank/k8s/vol1".data ProtocolNFS
    "tank".data [] "tank/csi-detached-snapshots".data
    (by decide) rfl (by decide) rfl rfl rfl

/-- C9 (confirmed).  `listAllSnapshots` begins with the managed-datasets
property search, never issues an unfiltered global snapshot query, and every
snapshot query it issues is filtered to the dataset of some managed,
non-detached dataset from the property-search result. -/
theorem list_all_snapshots_never_unfiltered (findResult : Except Unit (List DatasetWithProps)) :
    (listAllSnapshotsQueries findResult).head? =
      some (.findDatasetsByProperty PropertyManagedBy ManagedByValue) ∧
    SnapQuery.snapshotQueryUnfiltered ∉ listAllSnapshotsQueries findResult ∧
    ∀ d, SnapQuery.snapshotQueryByDataset d ∈ listAllSnapshotsQueries findResult →
      ∃ l ds, findResult = .ok l ∧ ds ∈ l ∧ ds.id = d ∧
        ds.detachedSnapshotProp ≠ some VolumeContextValueTrue := by
  cases hres : findResult with
  | error e =>
    refine ⟨rfl, ?_, ?_⟩
    · simp [listAllSnapshotsQueries]
    · intro d hd
      simp [listAllSnapshotsQueries] at hd
  | ok l =>
    refine ⟨rfl, ?_, ?_⟩
    · simp [listAllSnapshotsQueries]
    · intro d hd
      simp only [listAllSnapshotsQueries, List.mem_cons, List.mem_map,
        List.mem_filter] at hd
      rcases hd with hd | ⟨ds, ⟨hmem, hpred⟩, hq⟩
      · exact absurd hd (by simp)
      · refine ⟨l, ds, rfl, hmem, ?_, ?_⟩
        · exact (SnapQuery.snapshotQueryByDataset.injEq _ _).mp hq
        · intro hcon
          rw [hcon] at hpred
          simp at hpred

/-- C9 witness: the query-discipline theorem at a concrete managed-dataset
list containing one volume and one detached snapshot. -/
theorem list_all_snapshots_never_unfiltered_witness :
    (listAllSnapshotsQueries
        (.ok [⟨"tank/k8s/vol".data, none, none, none⟩,
              ⟨"tank/csi-detached-snapshots/snap-dr".data, some VolumeContextValueTrue,
               none, none⟩])).head? =
      some (.findDatasetsByProperty PropertyManagedBy ManagedByValue) ∧
    SnapQuery.snapshotQueryUnfiltered ∉ listAllSnapshotsQueries
      (.ok [⟨"tank/k8s/vol".data, none, none, none⟩,
            ⟨"tank/csi-detached-snapshots/snap-dr".data, some VolumeContextValueTrue,
             none, none⟩]) ∧
    ∀ d, SnapQuery.snapshotQueryByDataset d ∈ listAllSnapshotsQueries
        (.ok [⟨"tank/k8s/vol".data, none, none, none⟩,
              ⟨"tank/csi-detached-snapshots/snap-dr".data, some VolumeContextValueTrue,
               none, none⟩]) →
      ∃ l ds, (Except.ok [⟨"tank/k8s/vol".data, none, none, none⟩,
              ⟨"tank/csi-detached-snapshots/snap-dr".data, some VolumeContextValueTrue,
               none, none⟩] : Except Unit (List DatasetWithProps)) = .ok l ∧ ds ∈ l ∧ ds.id = d ∧
        ds.detachedSnapshotProp ≠ some VolumeContextValueTrue :=
  list_all_snapshots_never_unfiltered
    (.ok [⟨"tank/k8s/vol".data, none, none, none⟩,
          ⟨"tank/csi-detached-snapshots/snap-dr".data, some VolumeContextValueTrue,
           none, none⟩])

end TnsCsi
